import Mathlib

/-!
Verification of the islandr.io server core: the Bullet entity collision
pass, the session manager (handshake, heartbeat, close handler, movement
input, weapon switching) and the per-tick world bookkeeping.

Embedded from:
- src/src/store/entities/bullet.ts (Bullet.tick)
- src/server/src/index.ts (connection handler, message dispatch, tick loop)

Parts of the repository that the excerpt only calls (the Entity base
class, the Vec2 maths modules, the Inventory, the World) are modelled
from the specification; each such definition is marked in its doc
comment.
-/

namespace Islandr

/-! ### Client-side maths (types/maths.ts), used by the Bullet entity -/

/-- Modelled from the spec: immutable 2D vector of the client maths module
(types/maths.ts is not in the excerpt). Rational coordinates stand for the
floating-point coordinates of the source. -/
structure Maths.Vec2 where
  x : ℚ
  y : ℚ
deriving DecidableEq

/-- Modelled from the spec: vector addition. -/
def Maths.Vec2.addVec (a b : Maths.Vec2) : Maths.Vec2 :=
  ⟨a.x + b.x, a.y + b.y⟩

/-- Circle hitbox with a radius, as constructed in the source
(`new CircleHitbox(0.1)`). -/
structure CircleHitbox where
  radius : ℚ
deriving DecidableEq

/-- Modelled from the spec: two circle hitboxes collide when they
geometrically overlap, i.e. the squared distance of the centres is less
than the squared sum of the radii. -/
def circlesOverlap (p : Maths.Vec2) (r : ℚ) (q : Maths.Vec2) (s : ℚ) : Bool :=
  decide ((p.x - q.x) ^ 2 + (p.y - q.y) ^ 2 < (r + s) ^ 2)

/-! ### Entity model (types/entities.ts, modelled from the spec) -/

/-- Modelled from the spec: base simulated object state (position, velocity,
hitbox, health, vulnerability, despawn flag). -/
structure Entity where
  position : Maths.Vec2
  velocity : Maths.Vec2
  hitbox : CircleHitbox
  health : ℚ
  vulnerable : Bool
  despawn : Bool
deriving DecidableEq

/-- Modelled from the spec: `damage(amount)` reduces health and triggers
death when health reaches zero or below, but only if the entity is
vulnerable; otherwise it is a no-op. -/
def Entity.damage (e : Entity) (amt : ℚ) : Entity :=
  if e.vulnerable then
    { e with health := e.health - amt,
             despawn := e.despawn || decide (e.health - amt ≤ 0) }
  else e

/-- Modelled from the spec: a GameObject is anything that can receive
damage and be removed from the world (obstacles and buildings'
sub-obstacles). -/
structure GameObject where
  position : Maths.Vec2
  hitbox : CircleHitbox
  health : ℚ
  despawn : Bool
deriving DecidableEq

/-- Modelled from the spec: damaging a GameObject reduces its health and
marks it for removal when health reaches zero or below. -/
def GameObject.damage (o : GameObject) (amt : ℚ) : GameObject :=
  { o with health := o.health - amt,
           despawn := o.despawn || decide (o.health - amt ≤ 0) }

/-- Default GameObject, used only as the `List.getD` fallback in theorem
statements. -/
def defaultGameObject : GameObject := ⟨⟨0, 0⟩, ⟨0⟩, 0, false⟩

/-! ### Bullet (src/src/store/entities/bullet.ts) -/

/-- Bullet entity state, from src/src/store/entities/bullet.ts: damage
amount `dmg`, remaining tick budget `ticks`, position and velocity. The
bullet is always non-vulnerable, so the `vulnerable` field is omitted
(it never takes damage in the excerpt). -/
structure Bullet where
  position : Maths.Vec2
  velocity : Maths.Vec2
  dmg : ℚ
  ticks : ℤ
  despawn : Bool
deriving DecidableEq

/-- Bullet hitbox, from the source: `hitbox = new CircleHitbox(0.1)`. -/
def Bullet.hitbox : CircleHitbox := ⟨1 / 10⟩

/-- Modelled from the spec: `die()` sets the despawn flag (idempotent). -/
def Bullet.die (b : Bullet) : Bullet := { b with despawn := true }

/-- Modelled from the spec: the Entity base `tick` advances position by
velocity; this is the `super.tick(entities, objects)` call of the source. -/
def Bullet.move (b : Bullet) : Bullet :=
  { b with position := b.position.addVec b.velocity }

/-- Collision test of the bullet against a GameObject
(`this.collided(object)` in the source; `collided` modelled from the spec
as circle overlap). -/
def Bullet.collidedObj (b : Bullet) (o : GameObject) : Bool :=
  circlesOverlap b.position Bullet.hitbox.radius o.position o.hitbox.radius

/-- Collision test of the bullet against another Entity
(`this.collided(entity)` in the source). -/
def Bullet.collidedEnt (b : Bullet) (e : Entity) : Bool :=
  circlesOverlap b.position Bullet.hitbox.radius e.position e.hitbox.radius

/-- First pass of `Bullet.tick`: walk the object list in iteration order; on
the first collided object apply `dmg` and stop (the `for ... break` loop of
the source). Returns the updated list and whether a hit happened. -/
def damageFirstObject (b : Bullet) : List GameObject → List GameObject × Bool
  | [] => ([], false)
  | o :: rest =>
    if b.collidedObj o then (o.damage b.dmg :: rest, true)
    else
      let r := damageFirstObject b rest
      (o :: r.1, r.2)

/-- Second pass of `Bullet.tick`: same first-hit-wins walk over the entity
list, using `Entity.damage`. -/
def damageFirstEntity (b : Bullet) : List Entity → List Entity × Bool
  | [] => ([], false)
  | e :: rest =>
    if b.collidedEnt e then (e.damage b.dmg :: rest, true)
    else
      let r := damageFirstEntity b rest
      (e :: r.1, r.2)

/-- `Bullet.tick(entities, objects)` from src/src/store/entities/bullet.ts:
move (super.tick), then test the objects in iteration order damaging the
first hit and dying, then — only if not despawned — do the same over the
entities. Returns the bullet and both updated lists. -/
def Bullet.tick (b : Bullet) (entities : List Entity) (objects : List GameObject) :
    Bullet × List Entity × List GameObject :=
  let b1 := b.move
  let ro := damageFirstObject b1 objects
  let b2 := if ro.2 then b1.die else b1
  if b2.despawn then (b2, entities, ro.1)
  else
    let re := damageFirstEntity b2 entities
    ((if re.2 then b2.die else b2), re.1, ro.1)

/-- Modelled from the spec: the tick-budget handling that the excerpt leaves
to a collaborator ("implementer must decrement and check"). After the
collision passes of `Bullet.tick` run, the remaining tick budget is
decremented and the bullet despawns once it reaches zero; running it after
the collision passes realises the spec's rule that the explicit collision
check takes precedence for the tick. -/
def Bullet.tickWithBudget (b : Bullet) (entities : List Entity)
    (objects : List GameObject) : Bullet × List Entity × List GameObject :=
  let r := b.tick entities objects
  let t := r.1.ticks - 1
  (if t ≤ 0 then { r.1 with ticks := t, despawn := true }
   else { r.1 with ticks := t }, r.2.1, r.2.2)

/-! ### World bookkeeping (types/terrain.ts World, modelled from the spec) -/

/-- Sound event (path and world position). -/
structure Sound where
  path : String
  position : Maths.Vec2

/-- Visual particle event. -/
structure Particle where
  position : Maths.Vec2

/-- Modelled from the spec: the World's per-tick bookkeeping state — the
dirty/discard change-sets and the transient particle and sound queues
(the World class is not in the excerpt; the tick loop of
src/server/src/index.ts reads these fields and calls `postTick`). -/
structure World where
  size : Maths.Vec2
  entities : List Entity
  obstacles : List GameObject
  dirtyEntities : List Entity
  dirtyObstacles : List GameObject
  discardEntities : List Entity
  discardObstacles : List GameObject
  particles : List Particle
  joinSounds : List Sound
  onceSounds : List Sound

/-- Modelled from the spec: `postTick()` clears the dirty/discard sets and
the particle and once-sound queues, preparing for the next tick. -/
def World.postTick (w : World) : World :=
  { w with dirtyEntities := [], dirtyObstacles := [],
           discardEntities := [], discardObstacles := [],
           particles := [], onceSounds := [] }

/-! ### Server maths (types/math.ts, modelled from the spec) -/

/-- Modelled from the spec: immutable 2D vector of the server maths module
(types/math.ts is not in the excerpt). Real coordinates stand for the
floating-point coordinates of the source. -/
structure Math.Vec2 where
  x : ℝ
  y : ℝ

/-- The zero vector `Vec2.ZERO` of the source. -/
def Math.Vec2.ZERO : Math.Vec2 := ⟨0, 0⟩

/-- Modelled from the spec: vector addition (`addVec`). -/
def Math.Vec2.addVec (a b : Math.Vec2) : Math.Vec2 :=
  ⟨a.x + b.x, a.y + b.y⟩

/-- Modelled from the spec: euclidean magnitude of a vector. -/
noncomputable def Math.Vec2.magnitude (v : Math.Vec2) : ℝ :=
  Real.sqrt (v.x ^ 2 + v.y ^ 2)

open Classical in
/-- Modelled from the spec: unit-normalization; the zero vector normalizes
to the zero vector (not NaN). -/
noncomputable def Math.Vec2.unit (v : Math.Vec2) : Math.Vec2 :=
  if v.magnitude = 0 then Math.Vec2.ZERO
  else ⟨v.x / v.magnitude, v.y / v.magnitude⟩

/-- Modelled from the spec: the `DIRECTION_VEC` constant of constants.ts —
the four unit direction vectors of movement, opposite directions at index
pairs (0, 2) and (1, 3). -/
def DIRECTION_VEC : List Math.Vec2 := [⟨1, 0⟩, ⟨0, 1⟩, ⟨-1, 0⟩, ⟨0, -1⟩]

/-! ### Movement input handling (src/server/src/index.ts, movementpress and
movementrelease cases) -/

/-- Per-connection movement flag state: the `movements` array of the source
modelled as its entries (a JavaScript array read out of range yields
`undefined`, i.e. `false` under the loop's truthiness test) together with
its current `length`. -/
structure MoveState where
  movements : ℕ → Bool
  len : ℕ

/-- Flag update `movements[d] = v` on the entries. -/
def setFlag (m : ℕ → Bool) (d : ℕ) (v : Bool) : ℕ → Bool :=
  fun i => if i = d then v else m i

/-- The velocity recomputation loop of the source: starting from
`Vec2.ZERO`, add `DIRECTION_VEC[ii]` for every pressed index
`ii < movements.length`. Reading `DIRECTION_VEC` out of range yields
`undefined` and `addVec(undefined)` throws, which is modelled by `none`. -/
def sumPressed (m : ℕ → Bool) (len : ℕ) : Option Math.Vec2 :=
  (List.range len).foldl
    (fun acc i =>
      if m i then acc.bind (fun a => (DIRECTION_VEC.get? i).map (fun dv => a.addVec dv))
      else acc)
    (some Math.Vec2.ZERO)

/-- The `movementpress` case of the message handler: set the flag (growing
the array if the index is beyond its length, as JavaScript does), then
recompute the velocity; `none` stands for the handler throwing. -/
noncomputable def handleMovementPress (s : MoveState) (d : ℕ) : MoveState × Option Math.Vec2 :=
  let m := setFlag s.movements d true
  let len := max s.len (d + 1)
  (⟨m, len⟩, (sumPressed m len).map Math.Vec2.unit)

/-- The `movementrelease` case of the message handler, analogous to
`handleMovementPress` with the flag cleared. -/
noncomputable def handleMovementRelease (s : MoveState) (d : ℕ) : MoveState × Option Math.Vec2 :=
  let m := setFlag s.movements d false
  let len := max s.len (d + 1)
  (⟨m, len⟩, (sumPressed m len).map Math.Vec2.unit)

/-- The specification-side sum: the sum of the direction vectors of the
pressed flags among the four directions. -/
def pressedSum (m : ℕ → Bool) : Math.Vec2 :=
  (List.range 4).foldl
    (fun acc i => if m i then acc.addVec (DIRECTION_VEC.getD i Math.Vec2.ZERO) else acc)
    Math.Vec2.ZERO

/-- The initial movement state of a fresh connection:
`[false, false, false, false]`. -/
def initialMoveState : MoveState := ⟨fun _ => false, 4⟩

/-! ### Handshake (src/server/src/index.ts, connection handler) -/

/-- The handshake `response` packet: echoed connection id and chosen
username. -/
structure ResponsePacket where
  id : String
  username : String

/-- The first event of the handshake race: either the 10-second timer fires
first, or the first message arrives first. -/
inductive HandshakeEvent
  | timeout
  | message (r : ResponsePacket)

/-- The validity test of the source:
`decoded.id == id && decoded.username` (a non-empty username is truthy). -/
def validResponse (issued : String) (r : ResponsePacket) : Bool :=
  r.id == issued && !(r.username == "")

/-- Session identity attached to a Player at creation. -/
structure Player where
  id : String
  username : String
deriving DecidableEq

/-- Outcome of the connection handler up to acceptance. -/
structure HandshakeOutcome where
  connected : Bool
  closeCalled : Bool
  player : Option Player
  newCount : ℤ
  entitiesAfter : List Player

/-- The handshake of the connection handler: race the 10-second timer
against the first message. A valid response sets `connected` and the
username; an invalid response closes the socket; the timer firing first
just resolves the race. After the race, `if (!connected) return`, else the
player count is incremented and a Player is created and pushed onto
`world.entities`. -/
def runHandshake (issued : String) (ev : HandshakeEvent)
    (entities : List Player) (count : ℤ) : HandshakeOutcome :=
  match ev with
  | .timeout => ⟨false, false, none, count, entities⟩
  | .message r =>
    if validResponse issued r then
      ⟨true, false, some ⟨issued, r.username⟩, count + 1, entities ++ [⟨issued, r.username⟩]⟩
    else ⟨false, true, none, count, entities⟩

/-- The `socket.once("message", ...)` of the source: only the first message
of the connection is examined by the handshake; with no message the race is
decided by the timer. -/
def firstMessageOutcome (issued : String) (msgs : List ResponsePacket)
    (entities : List Player) (count : ℤ) : HandshakeOutcome :=
  match msgs with
  | [] => runHandshake issued .timeout entities count
  | m :: _ => runHandshake issued (.message m) entities count

/-! ### Heartbeat and close handler (src/server/src/index.ts) -/

/-- The inbound packet types of the message dispatch switch. -/
inductive ClientPacket
  | ping
  | movementpress (direction : ℕ)
  | movementrelease (direction : ℕ)
  | mousepress (button : ℕ)
  | mouserelease (button : ℕ)
  | mousemove (x y : ℚ)
  | interact
  | switchweapon (delta : ℤ) (setMode : Bool)
  | reloadweapon
  | usehealing (item : String)
deriving DecidableEq

/-- Which packets call `timeout.refresh()` in the message dispatch of the
source: only the `ping` case does. -/
def refreshesTimeout : ClientPacket → Bool
  | .ping => true
  | _ => false

/-- The inactivity timeout of the source, in milliseconds
(`setTimeout(..., 30000)`). -/
def HEARTBEAT_MS : ℕ := 30000

/-- Module-level server session state touched by the close handler: the
socket map, the player counter, this connection's `connected` flag, and the
world's live entity list (players). -/
structure ServerState where
  sockets : Finset String
  numberOfPlayers : ℤ
  connected : Bool
  entities : List Player

/-- The `socket.on("close", ...)` handler of the source: delete the socket
from the map, decrement the player count only if the connection had
completed handshake, clear the flag. The world's entity list is not
touched. -/
def onClose (st : ServerState) (id : String) : ServerState :=
  { st with sockets := st.sockets.erase id,
            numberOfPlayers :=
              if st.connected then st.numberOfPlayers - 1 else st.numberOfPlayers,
            connected := false }

/-- The 30-second timer firing: the source calls `socket.close()`, which
triggers the close handler. -/
def onHeartbeatFire (st : ServerState) (id : String) : ServerState :=
  onClose st id

/-! ### Weapon switching (src/server/src/index.ts, switchweapon case) -/

/-- Modelled from the spec: the inventory's ordered weapon slots;
`getWeapon(h)` is a JavaScript array read, so an out-of-range or negative
index yields `undefined` (`none`), as does an empty slot. -/
def getWeapon (ws : List (Option String)) (h : ℤ) : Option String :=
  if 0 ≤ h ∧ h < ws.length then ws.getD h.toNat none else none

/-- The index normalization of the source:
`if (holding < 0) holding += len; else holding %= len`. -/
def norm1 (len : ℕ) (h : ℤ) : ℤ :=
  if h < 0 then h + len else h % len

/-- One iteration of the skip-empty-slots loop body: step by the unit delta
and normalize. -/
def relStep (len : ℕ) (u : ℤ) (h : ℤ) : ℤ :=
  norm1 len (h + u)

/-- The `while (!getWeapon(holding))` loop of the relative switch mode,
with explicit fuel; `none` means the loop did not finish within the fuel. -/
def relLoop (ws : List (Option String)) (u : ℤ) : ℕ → ℤ → Option ℤ
  | 0, _ => none
  | fuel + 1, h =>
    if (getWeapon ws h).isSome then some h
    else relLoop ws u fuel (relStep ws.length u h)

/-- The relative mode of the `switchweapon` case: unit delta from the sign
of `delta`, one initial normalization of `holding + delta`, then the
skip-empty-slots loop. -/
def switchRelative (ws : List (Option String)) (holding δ : ℤ) (fuel : ℕ) : Option ℤ :=
  relLoop ws (if δ < 0 then -1 else 1) fuel (norm1 ws.length (holding + δ))

/-- Termination of the relative switch: some fuel suffices for the loop to
return a holding index. -/
def RelSwitchTerminates (ws : List (Option String)) (holding δ : ℤ) : Prop :=
  ∃ fuel r, switchRelative ws holding δ fuel = some r

/-! ### Concrete inputs used by the witness theorems -/

/-- A bullet at the origin with zero velocity, 1 damage and a 100-tick
budget. -/
def bullet0 : Bullet := ⟨⟨0, 0⟩, ⟨0, 0⟩, 1, 100, false⟩

/-- A GameObject at the origin with radius 1 and 10 health. -/
def obj0 : GameObject := ⟨⟨0, 0⟩, ⟨1⟩, 10, false⟩

/-- The bullet of `bullet0` with a single remaining budget tick. -/
def bullet1 : Bullet := { bullet0 with ticks := 1 }

/-! ### Theorems -/

/-- C5: after `postTick()` returns, `dirtyEntities`, `dirtyObstacles`,
`discardEntities`, `discardObstacles`, `particles` and `onceSounds` are all
empty, regardless of their contents before the call. -/
theorem c5_postTick_clears (w : World) :
    (w.postTick).dirtyEntities = [] ∧ (w.postTick).dirtyObstacles = [] ∧
    (w.postTick).discardEntities = [] ∧ (w.postTick).discardObstacles = [] ∧
    (w.postTick).particles = [] ∧ (w.postTick).onceSounds = [] :=
  ⟨rfl, rfl, rfl, rfl, rfl, rfl⟩

/-- C9: the close handler removes the connection from the socket map,
decrements the player count exactly once (and not at all if the handshake
never completed), and leaves the world's entity list unchanged; a second
close of the same connection does not decrement again. -/
theorem c9_close_handler (st : ServerState) (id : String) :
    (onClose st id).sockets = st.sockets.erase id ∧
    id ∉ (onClose st id).sockets ∧
    (onClose st id).numberOfPlayers =
      (if st.connected then st.numberOfPlayers - 1 else st.numberOfPlayers) ∧
    (onClose st id).entities = st.entities ∧
    (onClose (onClose st id) id).numberOfPlayers = (onClose st id).numberOfPlayers := by
  refine ⟨rfl, Finset.not_mem_erase id _, rfl, rfl, ?_⟩
  simp [onClose]

/-- C7 counterexample: a movementpress packet is an inbound message other
than a disconnect, yet the message dispatch of the source does not refresh
the inactivity timer on it (only the `ping` case calls
`timeout.refresh()`), contradicting the claim that any inbound message
refreshes the timer. -/
theorem c7_counterexample_no_refresh :
    refreshesTimeout (ClientPacket.movementpress 0) = false := rfl

/-- C7 amended: a 30-second inactivity timer is attached to each accepted
connection; only a `ping` packet refreshes it, every other packet leaves it
running; once it fires, the connection is force-closed and does not remain
in the active socket set. -/
theorem c7_heartbeat_amended :
    HEARTBEAT_MS = 30000 ∧
    refreshesTimeout ClientPacket.ping = true ∧
    (∀ p : ClientPacket, p ≠ ClientPacket.ping → refreshesTimeout p = false) ∧
    (∀ (st : ServerState) (id : String), id ∉ (onHeartbeatFire st id).sockets) := by
  refine ⟨rfl, rfl, ?_, ?_⟩
  · intro p hp
    cases p <;> first | rfl | exact absurd rfl hp
  · intro st id
    exact Finset.not_mem_erase id _

/-- C7 witness: the amended theorem applied to the concrete `interact`
packet, which does not refresh the timer. -/
theorem c7_witness : refreshesTimeout ClientPacket.interact = false :=
  c7_heartbeat_amended.2.2.1 ClientPacket.interact (by decide)

/-- C3 counterexample: when the 10-second timer wins the race (timeout),
the source merely returns after `if (!connected)`; no `socket.close()` is
called, contradicting the claim that on timeout the connection is closed. -/
theorem c3_counterexample_timeout_not_closed :
    (runHandshake "a" HandshakeEvent.timeout [] 0).closeCalled = false ∧
    (runHandshake "a" HandshakeEvent.timeout [] 0).connected = false :=
  ⟨rfl, rfl⟩

/-- C3 amended: a well-formed first response with the issued id and a
non-empty username yields a created Player, inserted into the entity list,
and a player count incremented by exactly one; a first response failing the
check closes the connection with no player created and the count unchanged;
a timeout creates no player and leaves the count unchanged but does not
explicitly close the socket. -/
theorem c3_handshake_amended (issued : String) (ev : HandshakeEvent)
    (entities : List Player) (count : ℤ) :
    (∀ r, ev = HandshakeEvent.message r → validResponse issued r = true →
      (runHandshake issued ev entities count).connected = true ∧
      (runHandshake issued ev entities count).player = some ⟨issued, r.username⟩ ∧
      (runHandshake issued ev entities count).entitiesAfter =
        entities ++ [⟨issued, r.username⟩] ∧
      (runHandshake issued ev entities count).newCount = count + 1) ∧
    (∀ r, ev = HandshakeEvent.message r → validResponse issued r = false →
      (runHandshake issued ev entities count).connected = false ∧
      (runHandshake issued ev entities count).closeCalled = true ∧
      (runHandshake issued ev entities count).player = none ∧
      (runHandshake issued ev entities count).entitiesAfter = entities ∧
      (runHandshake issued ev entities count).newCount = count) ∧
    (ev = HandshakeEvent.timeout →
      (runHandshake issued ev entities count).connected = false ∧
      (runHandshake issued ev entities count).closeCalled = false ∧
      (runHandshake issued ev entities count).player = none ∧
      (runHandshake issued ev entities count).entitiesAfter = entities ∧
      (runHandshake issued ev entities count).newCount = count) := by
  refine ⟨?_, ?_, ?_⟩
  · rintro r rfl hv
    simp [runHandshake, hv]
  · rintro r rfl hv
    simp [runHandshake, hv]
  · rintro rfl
    simp [runHandshake]

/-- C3 witness: a valid response (issued id echoed, username "alice")
increments the player count from 0 to 1. -/
theorem c3_witness :
    (runHandshake "a" (HandshakeEvent.message ⟨"a", "alice"⟩) [] 0).newCount = 0 + 1 :=
  ((c3_handshake_amended "a" (HandshakeEvent.message ⟨"a", "alice"⟩) [] 0).1
    ⟨"a", "alice"⟩ rfl (by decide)).2.2.2

/-- C10: the handshake outcome is decided solely by the first message on
the socket (`socket.once`): if the first message fails the check, the
connection is never accepted, whatever well-formed responses follow. -/
theorem c10_first_message_decides (issued : String) (m : ResponsePacket)
    (rest : List ResponsePacket) (entities : List Player) (count : ℤ)
    (hbad : validResponse issued m = false) :
    (firstMessageOutcome issued (m :: rest) entities count).connected = false ∧
    (firstMessageOutcome issued (m :: rest) entities count).closeCalled = true ∧
    (firstMessageOutcome issued (m :: rest) entities count).player = none ∧
    (firstMessageOutcome issued (m :: rest) entities count).newCount = count ∧
    (firstMessageOutcome issued (m :: rest) entities count).entitiesAfter = entities := by
  simp [firstMessageOutcome, runHandshake, hbad]

/-- C10 witness: a first message with the wrong id rejects the connection
even though a later message carries the correct id and a non-empty
username. -/
theorem c10_witness :
    (firstMessageOutcome "a" [⟨"b", "bob"⟩, ⟨"a", "alice"⟩] [] 0).connected = false :=
  (c10_first_message_decides "a" ⟨"b", "bob"⟩ [⟨"a", "alice"⟩] [] 0 (by decide)).1

/-- C8: evaluating the message handler at the failing input — a
movementpress packet with direction 4 arriving at a fresh movement state —
shows the velocity recomputation is not total: the loop reaches index 4,
`DIRECTION_VEC[4]` is undefined, and `addVec(undefined)` throws (modelled
by `none`), crashing the handler. -/
theorem c8_crash_on_direction_4 :
    (handleMovementPress initialMoveState 4).2 = none := rfl

/-- Helper: when some object of the list collides with the bullet, the
first pass damages exactly the first collided object in iteration order,
leaves every other element unchanged, and reports a hit. -/
theorem damageFirstObject_hit (b : Bullet) :
    ∀ os : List GameObject, (∃ o ∈ os, b.collidedObj o = true) →
      ∃ i, i < os.length ∧
        b.collidedObj (os.getD i defaultGameObject) = true ∧
        (∀ j, j < i → b.collidedObj (os.getD j defaultGameObject) = false) ∧
        damageFirstObject b os =
          (os.set i ((os.getD i defaultGameObject).damage b.dmg), true) := by
  intro os
  induction os with
  | nil => rintro ⟨o, ho, _⟩; simp at ho
  | cons o rest ih =>
    intro hex
    by_cases hc : b.collidedObj o = true
    · refine ⟨0, by simp, by simpa using hc, ?_, ?_⟩
      · intro j hj; omega
      · simp [damageFirstObject, hc]
    · have hco : b.collidedObj o = false := by
        cases h : b.collidedObj o
        · rfl
        · exact absurd h hc
      obtain ⟨o2, ho2, hc2⟩ := hex
      have ho2r : o2 ∈ rest := by
        rcases List.mem_cons.mp ho2 with h | h
        · exact absurd (h ▸ hc2) hc
        · exact h
      obtain ⟨i, hi, hcoll, hprev, heq⟩ := ih ⟨o2, ho2r, hc2⟩
      refine ⟨i + 1, by simpa using hi, by simpa using hcoll, ?_, ?_⟩
      · intro j hj
        cases j with
        | zero => simpa using hco
        | succ j2 => simpa using hprev j2 (by omega)
      · simp [damageFirstObject, hco, heq]

/-- C1: if the moved bullet overlaps at least one object, then exactly the
first overlapping object in iteration order has `damage(dmg)` applied, the
bullet's despawn flag becomes true, scanning stops (every other object is
returned unchanged), and the entity list is returned untouched (the second
pass is skipped). -/
theorem c1_bullet_first_object_hit (b : Bullet) (entities : List Entity)
    (objects : List GameObject)
    (hcol : ∃ o ∈ objects, (b.move).collidedObj o = true) :
    ∃ i, i < objects.length ∧
      (b.move).collidedObj (objects.getD i defaultGameObject) = true ∧
      (∀ j, j < i → (b.move).collidedObj (objects.getD j defaultGameObject) = false) ∧
      (b.tick entities objects).2.2 =
        objects.set i ((objects.getD i defaultGameObject).damage b.dmg) ∧
      (b.tick entities objects).1.despawn = true ∧
      (b.tick entities objects).2.1 = entities := by
  obtain ⟨i, hi, hcoll, hprev, heq⟩ := damageFirstObject_hit (b.move) objects hcol
  simp only [Bullet.move] at heq
  refine ⟨i, hi, hcoll, hprev, ?_, ?_, ?_⟩ <;>
    simp [Bullet.tick, Bullet.move, Bullet.die, heq]

/-- C1 witness: a bullet at the origin overlapping a single object at the
origin despawns during its tick. -/
theorem c1_witness : (bullet0.tick [] [obj0]).1.despawn = true := by
  have hcol : ∃ o ∈ [obj0], (bullet0.move).collidedObj o = true := by
    refine ⟨obj0, by simp, ?_⟩
    simp only [Bullet.collidedObj, circlesOverlap, Bullet.move, bullet0, obj0,
      Maths.Vec2.addVec, Bullet.hitbox, decide_eq_true_eq]
    norm_num
  obtain ⟨i, hi, hcoll, hprev, hobjs, hdesp, hent⟩ :=
    c1_bullet_first_object_hit bullet0 [] [obj0] hcol
  exact hdesp

/-- Helper for C6: the collision passes of `Bullet.tick` do not touch the
tick budget. -/
theorem Bullet.tick_ticks (b : Bullet) (entities : List Entity)
    (objects : List GameObject) : (b.tick entities objects).1.ticks = b.ticks := by
  simp only [Bullet.tick, Bullet.die, Bullet.move]
  split <;> split <;> first | rfl | (split <;> rfl)

/-- C6: every full bullet tick decrements the remaining tick budget; the
bullet despawns when the budget reaches zero; and when a budget expiry and
a collision would both occur in the same tick, the explicit collision check
takes precedence: the damage results on the object and entity lists are
exactly those of the collision pass, independent of the budget, and a
collision despawn is preserved. -/
theorem c6_bullet_budget (b : Bullet) (entities : List Entity)
    (objects : List GameObject) :
    (b.tickWithBudget entities objects).1.ticks = b.ticks - 1 ∧
    ((b.tickWithBudget entities objects).1.ticks ≤ 0 →
      (b.tickWithBudget entities objects).1.despawn = true) ∧
    ((b.tick entities objects).1.despawn = true →
      (b.tickWithBudget entities objects).1.despawn = true) ∧
    (b.tickWithBudget entities objects).2 = (b.tick entities objects).2 := by
  refine ⟨?_, ?_, ?_, ?_⟩
  · simp only [Bullet.tickWithBudget]
    split <;> simp [Bullet.tick_ticks]
  · intro h
    simp only [Bullet.tickWithBudget] at h ⊢
    by_cases hc : (b.tick entities objects).1.ticks - 1 ≤ 0
    · rw [if_pos hc]
    · rw [if_neg hc] at h ⊢
      exact absurd (by simpa using h) hc
  · intro h
    simp only [Bullet.tickWithBudget]
    split <;> simp [h]
  · simp only [Bullet.tickWithBudget]

/-- C6 witness: a bullet with a single remaining budget tick, colliding
with nothing, despawns after its tick. -/
theorem c6_witness : (bullet1.tickWithBudget [] []).1.despawn = true :=
  (c6_bullet_budget bullet1 [] []).2.1 (by decide)

/-- Helper: a vector with both components zero normalizes to the zero
vector. -/
theorem Math.Vec2.unit_of_zero (v : Math.Vec2) (hx : v.x = 0) (hy : v.y = 0) :
    v.unit = Math.Vec2.ZERO := by
  have hm : v.magnitude = 0 := by
    rw [Math.Vec2.magnitude, hx, hy]
    have h0 : (0 : ℝ) ^ 2 + 0 ^ 2 = 0 := by norm_num
    rw [h0, Real.sqrt_zero]
  rw [Math.Vec2.unit, if_pos hm]

/-- Helper: on a length-4 movement array with in-range direction vectors,
the recomputation loop of the source never throws and computes exactly the
sum of the pressed direction vectors. -/
theorem sumPressed_eq_pressedSum (m : ℕ → Bool) :
    sumPressed m 4 = some (pressedSum m) := by
  have hr : List.range 4 = [0, 1, 2, 3] := rfl
  simp only [sumPressed, pressedSum, hr]
  cases h0 : m 0 <;> cases h1 : m 1 <;> cases h2 : m 2 <;> cases h3 : m 3 <;>
    simp [h0, h1, h2, h3, DIRECTION_VEC]

/-- C2: after processing a movementpress or movementrelease packet with an
in-range direction, the player's velocity is set to the unit-normalization
of the sum of the direction vectors of the currently pressed flags; all
flags released yields the zero velocity, and a pressed opposite pair (and
nothing else) yields the zero velocity, because the zero vector normalizes
to zero. -/
theorem c2_movement_velocity (m : ℕ → Bool) (d : ℕ) (hd : d < 4) :
    (handleMovementPress ⟨m, 4⟩ d).2 =
      some (Math.Vec2.unit (pressedSum (setFlag m d true))) ∧
    (handleMovementRelease ⟨m, 4⟩ d).2 =
      some (Math.Vec2.unit (pressedSum (setFlag m d false))) ∧
    (∀ m2 : ℕ → Bool, (∀ i, i < 4 → m2 i = false) →
      Math.Vec2.unit (pressedSum m2) = Math.Vec2.ZERO) ∧
    (∀ m2 : ℕ → Bool, m2 0 = true → m2 1 = false → m2 2 = true → m2 3 = false →
      Math.Vec2.unit (pressedSum m2) = Math.Vec2.ZERO) ∧
    (∀ m2 : ℕ → Bool, m2 0 = false → m2 1 = true → m2 2 = false → m2 3 = true →
      Math.Vec2.unit (pressedSum m2) = Math.Vec2.ZERO) := by
  have hmax : max 4 (d + 1) = 4 := by omega
  have hr : List.range 4 = [0, 1, 2, 3] := rfl
  refine ⟨?_, ?_, ?_, ?_, ?_⟩
  · simp [handleMovementPress, hmax, sumPressed_eq_pressedSum]
  · simp [handleMovementRelease, hmax, sumPressed_eq_pressedSum]
  · intro m2 hall
    have hz : pressedSum m2 = Math.Vec2.ZERO := by
      simp [pressedSum, hr, hall 0 (by omega), hall 1 (by omega),
        hall 2 (by omega), hall 3 (by omega)]
    rw [hz]
    exact Math.Vec2.unit_of_zero _ rfl rfl
  · intro m2 h0 h1 h2 h3
    have hz : pressedSum m2 = Math.Vec2.ZERO := by
      simp only [pressedSum, hr, h0, h1, h2, h3, DIRECTION_VEC, Math.Vec2.addVec,
        Math.Vec2.ZERO, List.foldl_cons, List.foldl_nil, List.getD, if_true, if_false,
        Bool.false_eq_true, ite_false, ite_true]
      simp [Math.Vec2.mk.injEq]
    rw [hz]
    exact Math.Vec2.unit_of_zero _ rfl rfl
  · intro m2 h0 h1 h2 h3
    have hz : pressedSum m2 = Math.Vec2.ZERO := by
      simp only [pressedSum, hr, h0, h1, h2, h3, DIRECTION_VEC, Math.Vec2.addVec,
        Math.Vec2.ZERO, List.foldl_cons, List.foldl_nil, List.getD, if_true, if_false,
        Bool.false_eq_true, ite_false, ite_true]
      simp [Math.Vec2.mk.injEq]
    rw [hz]
    exact Math.Vec2.unit_of_zero _ rfl rfl

/-- C2 witness: pressing direction 0 on a fresh connection sets the
velocity to the normalized direction-vector sum of the pressed flags. -/
theorem c2_witness :
    (handleMovementPress initialMoveState 0).2 =
      some (Math.Vec2.unit (pressedSum (setFlag (fun _ => false) 0 true))) :=
  (c2_movement_velocity (fun _ => false) 0 (by decide)).1

/-- Helper for the C4 counterexample: with a single slot and a negative
out-of-range index, the loop body maps -1 back to -1, so no amount of fuel
finishes the loop. -/
theorem relLoop_stuck_single :
    ∀ fuel : ℕ, relLoop [some "pistol"] (-1) fuel (-1) = none := by
  intro fuel
  induction fuel with
  | zero => rfl
  | succ n ih =>
    have hw : (getWeapon [some "pistol"] (-1)).isSome = false := by decide
    have hs : relStep ([some "pistol"] : List (Option String)).length (-1) (-1) = -1 := by
      decide
    simp only [relLoop, hw, Bool.false_eq_true, if_false, hs]
    exact ih

/-- C4 counterexample: with a one-slot inventory whose only slot is
occupied, holding index 0 and delta -2, the initial normalization lands on
-1 and every loop iteration maps -1 back to -1, so the skip-empty-slots
loop never terminates even though a slot is occupied, refuting the claim
as stated. -/
theorem c4_counterexample_single_slot :
    ¬ RelSwitchTerminates [some "pistol"] 0 (-2) := by
  rintro ⟨fuel, r, hr⟩
  have hst : switchRelative [some "pistol"] 0 (-2) fuel = none := by
    have hn : norm1 ([some "pistol"] : List (Option String)).length (0 + -2) = -1 := by
      decide
    simp only [switchRelative]
    rw [if_pos (by norm_num : (-2 : ℤ) < 0), hn]
    exact relLoop_stuck_single fuel
  rw [hst] at hr
  exact Option.noConfusion hr

/-- Helper: if some iterate of the loop body within the fuel reaches an
occupied slot, the loop finishes and returns an occupied slot. -/
theorem relLoop_hits (ws : List (Option String)) (u : ℤ) :
    ∀ (fuel : ℕ) (h : ℤ),
      (∃ i, i < fuel ∧ (getWeapon ws ((relStep ws.length u)^[i] h)).isSome = true) →
      ∃ r, relLoop ws u fuel h = some r ∧ (getWeapon ws r).isSome = true := by
  intro fuel
  induction fuel with
  | zero =>
    rintro h ⟨i, hi, _⟩
    omega
  | succ n ih =>
    rintro h ⟨i, hi, hocc⟩
    by_cases hc : (getWeapon ws h).isSome = true
    · exact ⟨h, by simp [relLoop, hc], hc⟩
    · cases i with
      | zero =>
        simp only [Function.iterate_zero, id_eq] at hocc
        exact absurd hocc hc
      | succ i2 =>
        rw [Function.iterate_succ_apply] at hocc
        obtain ⟨r, hr, hro⟩ := ih (relStep ws.length u h) ⟨i2, by omega, hocc⟩
        refine ⟨r, ?_, hro⟩
        simp only [relLoop]
        rw [if_neg hc]
        exact hr

/-- Helper: inside the valid index range the loop body is stepping by the
unit delta modulo the slot count. -/
theorem relStep_in_range (len : ℕ) (u h : ℤ) (hu : u = 1 ∨ u = -1)
    (hlen : 1 ≤ (len : ℤ)) (h0 : 0 ≤ h) (h1 : h < (len : ℤ)) :
    relStep len u h = (h + u) % (len : ℤ) := by
  simp only [relStep, norm1]
  split
  · rename_i hneg
    have hu2 : u = -1 := by rcases hu with rfl | rfl <;> omega
    subst hu2
    have hh : h = 0 := by omega
    subst hh
    have e1 : ((-1 : ℤ) + (len : ℤ) * 1) % (len : ℤ) = (-1) % (len : ℤ) :=
      Int.add_mul_emod_self_left (-1) (len : ℤ) 1
    have e2 : ((-1 : ℤ) + (len : ℤ) * 1) % (len : ℤ) = -1 + (len : ℤ) := by
      rw [Int.emod_eq_of_lt (by omega) (by omega)]
      ring
    have e3 : ((0 : ℤ) + -1) = -1 := by ring
    rw [e3, ← e1, e2]
  · rfl

/-- Helper: iterating the loop body from an in-range index follows the
arithmetic progression with step `u`, modulo the slot count. -/
theorem relStep_iter (len : ℕ) (u : ℤ) (hu : u = 1 ∨ u = -1)
    (hlen : 1 ≤ (len : ℤ)) :
    ∀ (i : ℕ) (h : ℤ), 0 ≤ h → h < (len : ℤ) →
      (relStep len u)^[i] h = (h + u * i) % (len : ℤ) := by
  intro i
  induction i with
  | zero =>
    intro h h0 h1
    simp only [Function.iterate_zero, id_eq, Nat.cast_zero, mul_zero, add_zero]
    rw [Int.emod_eq_of_lt h0 h1]
  | succ n ih =>
    intro h h0 h1
    rw [Function.iterate_succ_apply', ih h h0 h1]
    have ha0 : 0 ≤ (h + u * n) % (len : ℤ) := Int.emod_nonneg _ (by omega)
    have ha1 : (h + u * n) % (len : ℤ) < (len : ℤ) := Int.emod_lt_of_pos _ (by omega)
    rw [relStep_in_range len u _ hu hlen ha0 ha1]
    have key : ∀ x : ℤ, ((x % (len : ℤ)) + u) % (len : ℤ) = (x + u) % (len : ℤ) := by
      intro x
      conv_lhs => rw [Int.add_emod]
      conv_rhs => rw [Int.add_emod]
      rw [Int.emod_emod_of_dvd _ dvd_rfl]
    rw [key]
    congr 1
    push_cast
    ring

/-- Helper: from any in-range index, some iterate of the loop body reaches
the occupied slot `j` (within one full cycle). -/
theorem relStep_cover (ws : List (Option String)) (u : ℤ) (hu : u = 1 ∨ u = -1)
    (hlen : 1 ≤ (ws.length : ℤ)) (j : ℕ) (hj : j < ws.length)
    (hjo : (ws.getD j none).isSome = true) (h : ℤ) (h0 : 0 ≤ h)
    (h1 : h < (ws.length : ℤ)) :
    ∃ i : ℕ, (getWeapon ws ((relStep ws.length u)^[i] h)).isSome = true := by
  set x : ℤ := u * ((j : ℤ) - h) with hx
  have hm0 : 0 ≤ x % (ws.length : ℤ) := Int.emod_nonneg _ (by omega)
  refine ⟨(x % (ws.length : ℤ)).toNat, ?_⟩
  have hiter := relStep_iter ws.length u hu hlen (x % (ws.length : ℤ)).toNat h h0 h1
  rw [Int.toNat_of_nonneg hm0] at hiter
  have hval : (h + u * (x % (ws.length : ℤ))) % (ws.length : ℤ) = (j : ℤ) := by
    have step1 : (u * (x % (ws.length : ℤ))) % (ws.length : ℤ)
        = (u * x) % (ws.length : ℤ) := by
      conv_lhs => rw [Int.mul_emod]
      rw [Int.emod_emod_of_dvd _ dvd_rfl, ← Int.mul_emod]
    have step2 : (h + u * (x % (ws.length : ℤ))) % (ws.length : ℤ)
        = (h + u * x) % (ws.length : ℤ) := by
      conv_lhs => rw [Int.add_emod]
      rw [step1, ← Int.add_emod]
    rw [step2]
    have hux : h + u * x = (j : ℤ) := by
      rw [hx]
      rcases hu with rfl | rfl <;> ring
    rw [hux]
    exact Int.emod_eq_of_lt (by omega) (by omega)
  rw [hiter, hval]
  simp only [getWeapon]
  rw [if_pos ⟨by omega, by omega⟩, Int.toNat_natCast]
  exact hjo

/-- Helper: with at least two slots and a unit delta of -1, the loop body
climbs any negative index back into the valid range. -/
theorem relStep_climb (len : ℕ) (hlen : 2 ≤ (len : ℤ)) :
    ∀ (n : ℕ) (s : ℤ), s.natAbs ≤ n → s < 0 →
      ∃ i : ℕ, 0 ≤ (relStep len (-1))^[i] s ∧ (relStep len (-1))^[i] s < (len : ℤ) := by
  intro n
  induction n with
  | zero =>
    intro s hs hneg
    omega
  | succ n ih =>
    intro s hs hneg
    have hstep : relStep len (-1) s = s - 1 + (len : ℤ) := by
      simp only [relStep, norm1]
      rw [if_pos (by omega)]
      ring
    by_cases hpos : 0 ≤ s - 1 + (len : ℤ)
    · refine ⟨1, ?_, ?_⟩ <;> simp only [Function.iterate_one, hstep] <;> omega
    · have hneg2 : s - 1 + (len : ℤ) < 0 := by omega
      have habs : (s - 1 + (len : ℤ)).natAbs ≤ n := by omega
      obtain ⟨i, hi0, hi1⟩ := ih (s - 1 + (len : ℤ)) habs hneg2
      refine ⟨i + 1, ?_, ?_⟩
      · rw [Function.iterate_succ_apply, hstep]
        exact hi0
      · rw [Function.iterate_succ_apply, hstep]
        exact hi1

/-- C4 amended: for a switchweapon packet in relative mode, provided at
least one inventory slot is occupied, the holding index is non-negative and
the inventory has at least two slots, the skip-empty-slots loop terminates
for every integer delta and the resulting holding index refers to an
occupied slot (with a single slot the loop can run forever, see the
counterexample). -/
theorem c4_relative_switch_lands_occupied (ws : List (Option String))
    (holding δ : ℤ) (hlen : 2 ≤ ws.length)
    (hocc : ∃ j : ℕ, j < ws.length ∧ (ws.getD j none).isSome = true)
    (hh0 : 0 ≤ holding) :
    ∃ fuel r, switchRelative ws holding δ fuel = some r ∧
      (getWeapon ws r).isSome = true := by
  obtain ⟨j, hj, hjo⟩ := hocc
  have hlenZ : 1 ≤ (ws.length : ℤ) := by omega
  set u : ℤ := if δ < 0 then -1 else 1 with hu_def
  have hu : u = 1 ∨ u = -1 := by
    by_cases hδ : δ < 0
    · right
      rw [hu_def, if_pos hδ]
    · left
      rw [hu_def, if_neg hδ]
  set s : ℤ := norm1 ws.length (holding + δ) with hs_def
  have hslt : s < (ws.length : ℤ) := by
    rw [hs_def]
    simp only [norm1]
    split
    · omega
    · exact Int.emod_lt_of_pos _ (by omega)
  by_cases hpos : 0 ≤ s
  · obtain ⟨i, hi⟩ := relStep_cover ws u hu hlenZ j hj hjo s hpos hslt
    obtain ⟨r, hr, hro⟩ := relLoop_hits ws u (i + 1) s ⟨i, by omega, hi⟩
    refine ⟨i + 1, r, ?_, hro⟩
    simp only [switchRelative, ← hu_def, ← hs_def]
    exact hr
  · push_neg at hpos
    have hδ : δ < 0 := by
      by_contra hge
      push_neg at hge
      have hnn : 0 ≤ holding + δ := by omega
      have hse : s = (holding + δ) % (ws.length : ℤ) := by
        rw [hs_def]
        simp only [norm1]
        rw [if_neg (by omega)]
      have : 0 ≤ s := hse ▸ Int.emod_nonneg _ (by omega)
      omega
    obtain ⟨i0, hi00, hi01⟩ := relStep_climb ws.length (by omega) s.natAbs s le_rfl hpos
    obtain ⟨i1, hi1⟩ := relStep_cover ws (-1) (Or.inr rfl) hlenZ j hj hjo
      ((relStep ws.length (-1))^[i0] s) hi00 hi01
    have hcomb : (relStep ws.length (-1))^[i1 + i0] s
        = (relStep ws.length (-1))^[i1] ((relStep ws.length (-1))^[i0] s) :=
      Function.iterate_add_apply _ i1 i0 s
    obtain ⟨r, hr, hro⟩ := relLoop_hits ws (-1) (i1 + i0 + 1) s
      ⟨i1 + i0, by omega, by rw [hcomb]; exact hi1⟩
    refine ⟨i1 + i0 + 1, r, ?_, hro⟩
    simp only [switchRelative, ← hs_def]
    rw [if_pos hδ]
    exact hr

/-- C4 witness: a two-slot inventory with only the second slot occupied;
from holding 0 with delta 1 the loop terminates on the occupied slot. -/
theorem c4_witness :
    ∃ fuel r, switchRelative [none, some "ak47"] 0 1 fuel = some r ∧
      (getWeapon [none, some "ak47"] r).isSome = true :=
  c4_relative_switch_lands_occupied [none, some "ak47"] 0 1 (by decide)
    ⟨1, by decide, by decide⟩ (by decide)

end Islandr
